import Mathlib

/-!
Verification of the NetROM transport adapter (package `netrom`).

The Go sources are shallowly embedded: pure string manipulation is modelled
over lists of character codes (`GoStr`), and the syscall-driven functions
(`connectTimeout`, `DialNetROMTimeout`, `waitRead`, `Accept`, `Close`) are
modelled as pure functions over an explicit environment describing the
outcome of each kernel call, returning the Go result together with the
trace of kernel operations performed (`Sys`).  Every branch and comparison
is translated directly from the source.
-/

/-- Linux errno values used by the source (`syscall.EINPROGRESS`, …). -/
def EINPROGRESS : Nat := 115

/-- `syscall.EALREADY` on Linux. -/
def EALREADY : Nat := 114

/-- `syscall.EINTR` on Linux. -/
def EINTR : Nat := 4

/-- `syscall.EINVAL` on Linux. -/
def EINVAL : Nat := 22

/-- A Go `error` value as it occurs in this package.  `errno e` is a
`syscall.Errno`; `pathError msg` is an `*os.PathError` whose wrapped
error's `Error()` text is `msg`; `eof` is `io.EOF`; `messageTooLong` is the
package-level `ErrMessageTooLong`; `dialTimeout` is the
`fmt.Errorf("Dial timeout")` value produced in `connectTimeout`;
`portNotExist` is `ErrPortNotExist`; `strErr` stands for any other
distinct error value. -/
inductive GoErr where
  | errno (e : Nat)
  | pathError (msg : String)
  | eof
  | messageTooLong
  | dialTimeout
  | portNotExist
  | strErr (msg : String)
deriving DecidableEq

/-- The error text Go's `os` layer reports when the remote peer hung up
(compared literally in `Conn.Read`). -/
def msgTransport : String := "transport endpoint is not connected"

/-- The error text Go's `os` layer reports for an oversized datagram
(compared literally in `Conn.Write`). -/
def msgTooLong : String := "message too long"

/-- `Conn.Read` from the source, as a translation on the result `(n, err)`
delivered by the underlying `io.ReadWriteCloser`.  `isNil` models the
receiver-nil check `c.ok()` (`c == nil` gives `isNil = true`).  The source
returns `(0, syscall.EINVAL)` on a nil receiver; otherwise, when `err` is
an `*os.PathError` whose inner message is exactly
"transport endpoint is not connected" it returns `(n, io.EOF)`, and every
other result is passed through unchanged. -/
def connRead (isNil : Bool) (res : Nat × Option GoErr) : Nat × Option GoErr :=
  if isNil then (0, some (.errno EINVAL))
  else
    match res with
    | (n, some (.pathError m)) =>
        if m = msgTransport then (n, some .eof) else (n, some (.pathError m))
    | r => r

/-- `Conn.Write` from the source, as a translation on the result `(n, err)`
delivered by the underlying `io.ReadWriteCloser`.  When `err` is an
`*os.PathError` whose inner message is exactly "message too long" it
returns `(n, ErrMessageTooLong)`; every other result passes through. -/
def connWrite (isNil : Bool) (res : Nat × Option GoErr) : Nat × Option GoErr :=
  if isNil then (0, some (.errno EINVAL))
  else
    match res with
    | (n, some (.pathError m)) =>
        if m = msgTooLong then (n, some .messageTooLong) else (n, some (.pathError m))
    | r => r

/-- Outcome of `netromListener.Close`, which executes
`close(ln.close); return ln.sock.close()`.  The Go runtime panics when
`close` is applied to an already-closed channel, so the model
distinguishes a normal return from a panic. -/
inductive CloseOut where
  | ret (e : Option GoErr)
  | panicked
deriving DecidableEq

/-- `netromListener.Close` from the source.  `chanClosed` is the state of
the `ln.close` channel before the call; `sockCloseErr` is the result of
`ln.sock.close()`.  Per the Go language specification, `close` on an
already-closed channel panics (before the socket close is reached);
otherwise the channel becomes closed and the socket-close result is
returned.  The second component is the channel state after the call. -/
def listenerClose (chanClosed : Bool) (sockCloseErr : Option GoErr) : CloseOut × Bool :=
  if chanClosed then (.panicked, true)
  else (.ret sockCloseErr, true)

/-- A kernel operation performed by the dial/connect code, recorded in
order of execution. -/
inductive Sys where
  | socketCreate
  | bindFd
  | connect
  | selectFd
  | getsockopt
  | closeFd
  | setNonblock (enable : Bool)
deriving DecidableEq

/-- Result of one `syscall.Select` call: the return value `n` and the
accompanying error (`none` = Go `nil`). -/
structure SelectRes where
  n : Int
  err : Option GoErr
deriving DecidableEq

/-- Result of `syscall.GetsockoptInt(..., SO_ERROR)`: either the call
itself fails (`gerr`) or it yields the pending socket error `nerr`. -/
inductive GSRes where
  | gerr (e : GoErr)
  | val (nerr : Nat)
deriving DecidableEq

/-- Environment for `connectTimeout`: outcomes of `syscall.SetNonblock`,
of `sock.connect`, and of each `Select`+`Getsockopt` round of the wait
loop (one entry consumed per loop iteration). -/
structure CTEnv where
  setNonblockErr : Option GoErr
  connectErr : Option GoErr
  events : List (SelectRes × GSRes)
deriving DecidableEq

/-- The `for` loop of `connectTimeout` (source lines with
`syscall.Select` … `break // Connected`).  Each iteration consumes one
`(Select, Getsockopt)` outcome.  Branches, in source order:
`n < 0 && err != syscall.EINTR` closes the socket and returns the select
error; `n > 0` reads `SO_ERROR` — a getsockopt failure closes and returns
it, a pending error outside {0, EINPROGRESS, EALREADY, EINTR} closes and
returns `Errno(nerr)`, and otherwise the loop `break`s, after which the
socket is restored to blocking mode and the (named) select error — `nil`
on a successful select — is returned; any other select outcome closes the
socket and returns the "Dial timeout" error.  Every branch of the source
loop returns or breaks, so exactly one event is ever consumed; the `[]`
case is unreachable for nonempty event lists and yields a
model-artifact error. -/
def ctLoop : List (SelectRes × GSRes) → Option GoErr × List Sys
  | [] => (some (.errno 0), [])
  | (sel, gs) :: _rest =>
    if sel.n < 0 ∧ sel.err ≠ some (.errno EINTR) then
      (sel.err, [Sys.selectFd, Sys.closeFd])
    else if sel.n > 0 then
      match gs with
      | .gerr e => (some e, [Sys.selectFd, Sys.getsockopt, Sys.closeFd])
      | .val nerr =>
        if nerr ≠ 0 ∧ nerr ≠ EINPROGRESS ∧ nerr ≠ EALREADY ∧ nerr ≠ EINTR then
          (some (.errno nerr), [Sys.selectFd, Sys.getsockopt, Sys.closeFd])
        else
          (sel.err, [Sys.selectFd, Sys.getsockopt, Sys.setNonblock false])
    else
      (some .dialTimeout, [Sys.selectFd, Sys.closeFd])

/-- `fd.connectTimeout` from the source.  `timeout = 0` performs the
plain blocking `sock.connect(addr)` and returns its result directly.
Otherwise the descriptor is set non-blocking; a synchronously successful
connect returns `nil`; a connect error other than `EINPROGRESS` is
returned as-is; on `EINPROGRESS` the select/getsockopt wait (`ctLoop`)
runs.  The second component is the trace of kernel operations. -/
def connectTimeout (timeout : Nat) (env : CTEnv) : Option GoErr × List Sys :=
  if timeout = 0 then
    (env.connectErr, [Sys.connect])
  else
    match env.setNonblockErr with
    | some e => (some e, [Sys.setNonblock true])
    | none =>
      match env.connectErr with
      | none => (none, [Sys.setNonblock true, Sys.connect])
      | some e =>
        if e ≠ GoErr.errno EINPROGRESS then
          (some e, [Sys.setNonblock true, Sys.connect])
        else
          let r := ctLoop env.events
          (r.1, Sys.setNonblock true :: Sys.connect :: r.2)

/-- Environment for `DialNetROMTimeout`: outcomes of `checkPort`, of
`localAddr.setPort`, of `syscall.Socket`, of `socket.bind`, and the
`connectTimeout` environment. -/
structure DialEnv where
  checkPortErr : Option GoErr
  setPortErr : Option GoErr
  socketErr : Option GoErr
  bindErr : Option GoErr
  ct : CTEnv
deriving DecidableEq

/-- `DialNetROMTimeout` from the source, with its kernel-operation trace.
Source order: `checkPort`, `localAddr.setPort`, `syscall.Socket`,
`socket.bind`, `socket.connectTimeout`.  Note that the bind-failure
branch (`if err := socket.bind(localAddr); err != nil { return nil, err }`)
returns without closing the just-created socket, whereas a
`connectTimeout` failure is followed by `socket.close()` before the error
is returned. -/
def DialNetROMTimeout (timeout : Nat) (env : DialEnv) : Option GoErr × List Sys :=
  match env.checkPortErr with
  | some e => (some e, [])
  | none =>
  match env.setPortErr with
  | some e => (some e, [])
  | none =>
  match env.socketErr with
  | some e => (some e, [Sys.socketCreate])
  | none =>
  match env.bindErr with
  | some e => (some e, [Sys.socketCreate, Sys.bindFd])
  | none =>
    let r := connectTimeout timeout env.ct
    match r.1 with
    | some e => (some e, Sys.socketCreate :: Sys.bindFd :: r.2 ++ [Sys.closeFd])
    | none => (none, Sys.socketCreate :: Sys.bindFd :: r.2)

/-- `DialNetROM` from the source: literally
`DialNetROMTimeout(nrPort, mycall, targetcall, 0)`. -/
def DialNetROM (env : DialEnv) : Option GoErr × List Sys :=
  DialNetROMTimeout 0 env

/-- Concrete environment for the C1 counterexample: `SetNonblock`
succeeds, `connect` reports `EINPROGRESS`, the first select wakeup
succeeds (`n = 1`, no error) and `SO_ERROR` reads back `EINPROGRESS`; a
second, fully successful wakeup is queued behind it. -/
def c1Env : CTEnv :=
  { setNonblockErr := none
  , connectErr := some (.errno EINPROGRESS)
  , events := [({ n := 1, err := none }, .val EINPROGRESS),
               ({ n := 1, err := none }, .val 0)] }

/-- C1 counterexample: with a pending error of `EINPROGRESS` after the
first wakeup, `connectTimeout` does NOT retry the wait (the claim says
the wait is retried) and does not fail: it breaks out of the loop,
restores blocking mode and returns success, performing exactly one
`Select` and leaving the second queued wakeup unconsumed. -/
theorem c1_pending_einprogress_counterexample :
    connectTimeout 1 c1Env =
      (none, [Sys.setNonblock true, Sys.connect, Sys.selectFd,
              Sys.getsockopt, Sys.setNonblock false]) := by
  decide

/-- C1 (amended): after the writability wait wakes (`n > 0`) and the
socket's pending error is read, a pending error of 0, `EINPROGRESS`,
`EALREADY` or `EINTR` makes `connectTimeout` treat the connection as
established — it exits the loop, restores blocking mode and returns the
select call's error value (`nil` for a successful select) — while every
other non-zero pending error terminates the attempt as a dial failure,
closing the socket and returning `Errno(nerr)`. -/
theorem c1_pending_error_amended (env : CTEnv) (t : Nat) (sel : SelectRes)
    (nerr : Nat) (rest : List (SelectRes × GSRes))
    (ht : t ≠ 0)
    (hsnb : env.setNonblockErr = none)
    (hconn : env.connectErr = some (.errno EINPROGRESS))
    (hev : env.events = (sel, .val nerr) :: rest)
    (hn : sel.n > 0) :
    (nerr = 0 ∨ nerr = EINPROGRESS ∨ nerr = EALREADY ∨ nerr = EINTR →
      connectTimeout t env =
        (sel.err, [Sys.setNonblock true, Sys.connect, Sys.selectFd,
                   Sys.getsockopt, Sys.setNonblock false])) ∧
    (nerr ≠ 0 → nerr ≠ EINPROGRESS → nerr ≠ EALREADY → nerr ≠ EINTR →
      connectTimeout t env =
        (some (.errno nerr), [Sys.setNonblock true, Sys.connect, Sys.selectFd,
                              Sys.getsockopt, Sys.closeFd])) := by
  have hnn : ¬ sel.n < 0 := by omega
  constructor
  · intro hsp
    have hcond : ¬ (nerr ≠ 0 ∧ nerr ≠ EINPROGRESS ∧ nerr ≠ EALREADY ∧ nerr ≠ EINTR) := by
      rcases hsp with h | h | h | h <;> simp [h]
    simp [connectTimeout, ctLoop, ht, hsnb, hconn, hev, hn, hnn, hcond]
  · intro h0 h1 h2 h3
    have hcond : nerr ≠ 0 ∧ nerr ≠ EINPROGRESS ∧ nerr ≠ EALREADY ∧ nerr ≠ EINTR :=
      ⟨h0, h1, h2, h3⟩
    simp [connectTimeout, ctLoop, ht, hsnb, hconn, hev, hn, hnn, hcond]

/-- Witness for C1 (amended) at a concrete environment: a pending error
of 13 (`EACCES`) terminates the attempt as a dial failure with the socket
closed. -/
theorem c1_pending_error_amended_witness :
    connectTimeout 1
      { setNonblockErr := none
      , connectErr := some (.errno EINPROGRESS)
      , events := [({ n := 1, err := none }, .val 13)] } =
      (some (.errno 13), [Sys.setNonblock true, Sys.connect, Sys.selectFd,
                          Sys.getsockopt, Sys.closeFd]) :=
  (c1_pending_error_amended _ 1 _ 13 [] (by decide) rfl rfl rfl (by decide)).2
    (by decide) (by decide) (by decide) (by decide)

/-- Concrete environment for C2: the port checks, `setPort` and
`syscall.Socket` succeed, then `socket.bind` fails with errno 13
(`EACCES`). -/
def c2Env : DialEnv :=
  { checkPortErr := none
  , setPortErr := none
  , socketErr := none
  , bindErr := some (.errno 13)
  , ct := { setNonblockErr := none, connectErr := none, events := [] } }

/-- C2: on the bind-failure path of `DialNetROMTimeout` the created
socket descriptor is NOT closed before the error is returned — the trace
ends after `bind` with no `close`, leaking the descriptor — contradicting
the spec's mandatory cleanup on every failure exit. -/
theorem c2_bind_failure_leaks_descriptor :
    DialNetROMTimeout 5 c2Env = (some (.errno 13), [Sys.socketCreate, Sys.bindFd]) ∧
    Sys.closeFd ∉ (DialNetROMTimeout 5 c2Env).2 := by
  decide

/-- C8: `DialNetROM` is exactly `DialNetROMTimeout` with timeout 0, and
`connectTimeout` with timeout 0 performs the single ordinary blocking
`connect` call, returning its result: the trace is `[connect]`, with no
non-blocking setup (`SetNonblock`), no readiness wait (`Select`) and no
internally produced timeout error. -/
theorem c8_zero_timeout_blocking_connect (denv : DialEnv) (cenv : CTEnv) :
    DialNetROM denv = DialNetROMTimeout 0 denv ∧
    connectTimeout 0 cenv = (cenv.connectErr, [Sys.connect]) ∧
    Sys.selectFd ∉ (connectTimeout 0 cenv).2 ∧
    (∀ b : Bool, Sys.setNonblock b ∉ (connectTimeout 0 cenv).2) := by
  refine ⟨rfl, by simp [connectTimeout], ?_, ?_⟩
  · simp [connectTimeout]
  · intro b
    simp [connectTimeout]

/-- C6: for every read on a (non-nil) Conn where the underlying handle
reports the "transport endpoint is not connected" condition as a path
error, `Conn.Read` returns `io.EOF` (with the byte count); every other
error from the underlying handle is returned to the caller unchanged. -/
theorem c6_read_translates_hangup_to_eof (n : Nat) (e : GoErr)
    (he : e ≠ .pathError msgTransport) :
    connRead false (n, some (.pathError msgTransport)) = (n, some .eof) ∧
    connRead false (n, some e) = (n, some e) ∧
    connRead false (n, none) = (n, none) := by
  refine ⟨by simp [connRead], ?_, by simp [connRead]⟩
  cases e with
  | pathError m =>
      have hm : m ≠ msgTransport := by
        intro h
        exact he (by simp [h])
      simp [connRead, hm]
  | _ => simp [connRead]

/-- Witness for C6 at concrete inputs: a hangup path error becomes EOF,
while `errno 107` passes through unchanged. -/
theorem c6_read_translates_hangup_to_eof_witness :
    connRead false (3, some (.pathError msgTransport)) = (3, some .eof) ∧
    connRead false (3, some (.errno 107)) = (3, some (.errno 107)) ∧
    connRead false (3, none) = (3, none) :=
  c6_read_translates_hangup_to_eof 3 (.errno 107) (by decide)

/-- C7: for every write on a (non-nil) Conn where the underlying handle
reports the "message too long" condition as a path error, `Conn.Write`
returns the distinguished `ErrMessageTooLong` together with the byte
count; every other error from the underlying handle is returned
unchanged. -/
theorem c7_write_translates_msg_too_long (n : Nat) (e : GoErr)
    (he : e ≠ .pathError msgTooLong) :
    connWrite false (n, some (.pathError msgTooLong)) = (n, some .messageTooLong) ∧
    connWrite false (n, some e) = (n, some e) ∧
    connWrite false (n, none) = (n, none) := by
  refine ⟨by simp [connWrite], ?_, by simp [connWrite]⟩
  cases e with
  | pathError m =>
      have hm : m ≠ msgTooLong := by
        intro h
        exact he (by simp [h])
      simp [connWrite, hm]
  | _ => simp [connWrite]

/-- Witness for C7 at concrete inputs: an oversized-write path error
becomes `ErrMessageTooLong` (byte count preserved), while `errno 90`
passes through unchanged. -/
theorem c7_write_translates_msg_too_long_witness :
    connWrite false (42, some (.pathError msgTooLong)) = (42, some .messageTooLong) ∧
    connWrite false (42, some (.errno 90)) = (42, some (.errno 90)) ∧
    connWrite false (42, none) = (42, none) :=
  c7_write_translates_msg_too_long 42 (.errno 90) (by decide)

/-- C10: a first `netromListener.Close` returns the socket-close result
normally (marking the channel closed), and a second `Close` panics —
`close(ln.close)` on the now-closed channel panics per Go semantics — so
`Close` never returns an error on the second call and is not idempotent;
the at-most-once discipline is the caller's burden. -/
theorem c10_second_close_panics (e1 e2 : Option GoErr) :
    listenerClose false e1 = (.ret e1, true) ∧
    listenerClose (listenerClose false e1).2 e2 = (.panicked, true) ∧
    ∀ e : Option GoErr, (listenerClose (listenerClose false e1).2 e2).1 ≠ .ret e := by
  refine ⟨by simp [listenerClose], by simp [listenerClose], ?_⟩
  intro e
  simp [listenerClose]

/-- The `syscall.FdSet` bit array.  The source computes
`fElemSize := 32 * 32 / len(p.Bits)` and addresses bit `i` as bit
`i % fElemSize` of word `i / fElemSize`; on 64-bit Linux `Bits` has 16
words of 64 bits.  Words are modelled as `Nat` (only bits below the word
size are ever set by `fdSetBits` for descriptors < 1024). -/
structure FdSet where
  bitWords : List Nat
deriving DecidableEq

/-- `fElemSize` from the source: `32 * 32 / len(p.Bits)`. -/
def fElemSize (p : FdSet) : Nat := 32 * 32 / p.bitWords.length

/-- `fdIsSet` from the source:
`p.Bits[i/fElemSize] & (1 << uint(i%fElemSize)) != 0`. -/
def fdIsSet (p : FdSet) (i : Nat) : Bool :=
  Nat.land (p.bitWords.getD (i / fElemSize p) 0) (Nat.shiftLeft 1 (i % fElemSize p)) ≠ 0

/-- `fdSet` from the source (renamed to avoid clashing with the `FdSet`
type): sets `p.Bits[i/fElemSize] |= 1 << uint(i%fElemSize)` for each
descriptor and returns the updated set with the maximum descriptor.  The
source panics for descriptors above 1024; the model is only applied
below that bound. -/
def fdSetBits (p : FdSet) (fds : List Nat) : FdSet × Nat :=
  fds.foldl
    (fun acc i =>
      let q := acc.1
      let w := i / fElemSize q
      (⟨q.bitWords.set w (Nat.lor (q.bitWords.getD w 0)
          (Nat.shiftLeft 1 (i % fElemSize q)))⟩,
       max acc.2 i))
    (p, 0)

/-- Environment for `fd.waitRead`: the outcome of `os.Pipe`, the select
return value and error, and the fd-set as mutated by the kernel when
`Select` returns (the ready set).  `sockFd` is the watched socket
descriptor.  The cancellation goroutine writing to the pipe is reflected
in whether the pipe's read end is marked ready in `retSet`. -/
structure WaitEnv where
  pipeErr : Option GoErr
  selN : Int
  selErr : Option GoErr
  retSet : FdSet
  sockFd : Nat
  pipeFd : Nat
deriving DecidableEq

/-- `fd.waitRead` from the source.  A pipe-creation failure is returned
as-is.  After `Select` returns: `n < 0 || err != nil` returns the select
error; otherwise, if the socket descriptor is in the ready set the wait
succeeds (`nil`), and if it is not — only the cancellation pipe woke the
select — `syscall.EINVAL` is returned, the documented indication that
the socket is being closed by another thread.  As in `connectTimeout`,
every branch of the source loop returns or breaks, so the loop body runs
exactly once. -/
def waitRead (env : WaitEnv) : Option GoErr :=
  match env.pipeErr with
  | some e => some e
  | none =>
    if env.selN < 0 ∨ env.selErr ≠ none then env.selErr
    else if fdIsSet env.retSet env.sockFd then none
    else some (.errno EINVAL)

/-- C9: whenever the multiplexing `Select` of `waitRead` returns normally
with the socket descriptor marked readable, `waitRead` returns success
even if the cancellation pipe is also marked readable in the same ready
set; the cancellation result `syscall.EINVAL` is returned exactly when
the returned ready set does not include the socket.  Socket readiness
wins ties. -/
theorem c9_waitread_socket_readiness_wins (env : WaitEnv)
    (hp : env.pipeErr = none) (hs : env.selErr = none) (hn : 0 ≤ env.selN) :
    (fdIsSet env.retSet env.sockFd = true → waitRead env = none) ∧
    (fdIsSet env.retSet env.sockFd = true → fdIsSet env.retSet env.pipeFd = true →
      waitRead env = none) ∧
    (waitRead env = some (.errno EINVAL) ↔ fdIsSet env.retSet env.sockFd = false) := by
  have hnn : ¬ env.selN < 0 := by omega
  refine ⟨?_, ?_, ?_⟩
  · intro h
    simp [waitRead, hp, hs, hnn, h]
  · intro h _
    simp [waitRead, hp, hs, hnn, h]
  · constructor
    · intro h
      by_contra hc
      simp only [Bool.not_eq_false] at hc
      simp [waitRead, hp, hs, hnn, hc] at h
    · intro h
      simp [waitRead, hp, hs, hnn, h]

/-- Witness for C9 at a concrete environment: with one 1024-bit word in
which both bit 3 (the socket) and bit 4 (the pipe) are set — both woke
the select — `waitRead` returns success, and EINVAL is not returned. -/
theorem c9_waitread_socket_readiness_wins_witness :
    waitRead { pipeErr := none, selN := 2, selErr := none
             , retSet := ⟨[24]⟩, sockFd := 3, pipeFd := 4 } = none ∧
    ¬ (waitRead { pipeErr := none, selN := 2, selErr := none
                , retSet := ⟨[24]⟩, sockFd := 3, pipeFd := 4 } = some (.errno EINVAL)) := by
  have h := c9_waitread_socket_readiness_wins
    { pipeErr := none, selN := 2, selErr := none
    , retSet := ⟨[24]⟩, sockFd := 3, pipeFd := 4 } rfl rfl (by decide)
  refine ⟨h.2.1 (by decide) (by decide), ?_⟩
  intro hc
  exact absurd (h.2.2.mp hc) (by decide)

/-- The structured callsign address of the package: `Call` is the base
callsign text, `SSID` the `uint8` sub-identifier.  Go strings are
modelled as lists of character codes (`GoStr`). -/
structure Address where
  Call : List Nat
  SSID : Nat
deriving DecidableEq

/-- Environment for `netromListener.Accept`: the `waitRead` environment
plus the outcome of the kernel `accept` — an error, or a new connected
descriptor together with the kernel-reported peer address (an `ax25Addr`
already decoded to an `Address` by `ax25Addr.Address()`). -/
structure ListenerEnv where
  wait : WaitEnv
  acceptErr : Option GoErr
  acceptFd : Nat
  acceptPeer : Address
deriving DecidableEq

/-- Result of `netromListener.Accept`: an error, or the `Conn` the source
builds — `localAddr` is the listener's bound address, `remoteAddr` wraps
the kernel-reported peer address, and the stream is the accepted
descriptor `nfd`. -/
inductive AcceptOut where
  | conn (localA : Address) (remoteA : Address) (nfd : Nat)
  | err (e : GoErr)
deriving DecidableEq

/-- `netromListener.Accept` from the source: `waitRead(ln.close)` first —
any error is returned as-is — then the kernel `accept`, whose error is
returned as-is; on success the `Conn` is assembled from the listener's
`localAddr`, the peer address, and the new descriptor. -/
def netromAccept (localAddr : Address) (env : ListenerEnv) : AcceptOut :=
  match waitRead env.wait with
  | some e => .err e
  | none =>
    match env.acceptErr with
    | some e => .err e
    | none => .conn localAddr env.acceptPeer env.acceptFd

/-- C3: when `Close` fires while `Accept` is blocked in `waitRead` — the
cancellation pipe wakes the select and the socket is not in the ready
set — `Accept` returns the distinguished listener-closed error, realized
in this code as `syscall.EINVAL` (documented at `waitRead`: "returned if
the cancel channel is closed"); when the wait instead completes with the
socket readable, `Accept` performs the kernel accept and returns a Conn
whose local address is the listener's bound address and whose remote
address is the kernel-reported peer address. -/
theorem c3_accept_close_and_ready (localA : Address) (env : ListenerEnv)
    (hp : env.wait.pipeErr = none) (hs : env.wait.selErr = none)
    (hn : 0 ≤ env.wait.selN) :
    (fdIsSet env.wait.retSet env.wait.sockFd = false →
      netromAccept localA env = .err (.errno EINVAL)) ∧
    (fdIsSet env.wait.retSet env.wait.sockFd = true → env.acceptErr = none →
      netromAccept localA env = .conn localA env.acceptPeer env.acceptFd) := by
  have hnn : ¬ env.wait.selN < 0 := by omega
  constructor
  · intro h
    simp [netromAccept, waitRead, hp, hs, hnn, h]
  · intro h hacc
    simp [netromAccept, waitRead, hp, hs, hnn, h, hacc]

/-- Witness for C3 at concrete environments: with only the pipe ready
(ready word 16 = bit 4) `Accept` returns EINVAL; with the socket ready
(bit 3) and a successful kernel accept it returns the Conn wrapping the
listener's address, the peer address, and the accepted descriptor. -/
theorem c3_accept_close_and_ready_witness :
    netromAccept ⟨[78, 48], 1⟩
      { wait := { pipeErr := none, selN := 1, selErr := none
                , retSet := ⟨[16]⟩, sockFd := 3, pipeFd := 4 }
      , acceptErr := none, acceptFd := 9, acceptPeer := ⟨[78, 48], 2⟩ } =
      .err (.errno EINVAL) ∧
    netromAccept ⟨[78, 48], 1⟩
      { wait := { pipeErr := none, selN := 1, selErr := none
                , retSet := ⟨[8]⟩, sockFd := 3, pipeFd := 4 }
      , acceptErr := none, acceptFd := 9, acceptPeer := ⟨[78, 48], 2⟩ } =
      .conn ⟨[78, 48], 1⟩ ⟨[78, 48], 2⟩ 9 :=
  ⟨(c3_accept_close_and_ready ⟨[78, 48], 1⟩ _ rfl rfl (by decide)).1 (by decide),
   (c3_accept_close_and_ready ⟨[78, 48], 1⟩ _ rfl rfl (by decide)).2 (by decide) rfl⟩

/-- A Go string, modelled as the list of its character codes. -/
abbrev GoStr := List Nat

/-- The character code of the dash separator `-`. -/
def dashCode : Nat := 45

/-- `strings.Split(str, "-")` from the source: the list of substrings of
`str` between consecutive dashes.  `Split` always yields at least one
(possibly empty) part. -/
def splitDash : GoStr → List GoStr
  | [] => [[]]
  | c :: cs =>
    if c = dashCode then [] :: splitDash cs
    else
      match splitDash cs with
      | [] => [[c]]
      | p :: ps => (c :: p) :: ps

/-- The digit scan of `strconv.ParseUint` (base 10): left-to-right
accumulation, failing on any non-digit character. -/
def digitsVal : GoStr → Nat → Option Nat
  | [], acc => some acc
  | c :: cs, acc =>
    if 48 ≤ c ∧ c ≤ 57 then digitsVal cs (acc * 10 + (c - 48)) else none

/-- `strconv.ParseInt(s, 10, 32)` from the source: empty input fails; an
optional leading `-` or `+` sign is consumed (the remainder must be
nonempty); the remaining characters must all be decimal digits; and the
signed value must fit in 32 bits.  Any failure (syntax or range) yields
`none`, matching the source's single `err == nil` test. -/
def parseInt10 (s : GoStr) : Option Int :=
  match s with
  | [] => none
  | c :: cs =>
    let neg : Bool := c = dashCode
    let body := if c = dashCode ∨ c = 43 then cs else c :: cs
    match body with
    | [] => none
    | _ =>
      match digitsVal body 0 with
      | none => none
      | some v =>
        let i : Int := if neg then -(v : Int) else (v : Int)
        if -(2 ^ 31) ≤ i ∧ i < 2 ^ 31 then some i else none

/-- Decimal rendering helper (`fmt.Sprintf("%d", n)`), with explicit fuel
for structural termination; the fuel `n + 1` always suffices. -/
def natToDecAux : Nat → Nat → GoStr → GoStr
  | 0, _, acc => acc
  | fuel + 1, n, acc =>
    if n < 10 then (48 + n) :: acc
    else natToDecAux fuel (n / 10) ((48 + n % 10) :: acc)

/-- The canonical decimal numeral of `n` (no sign, no leading zeros),
as printed by `fmt.Sprintf("%d", n)`. -/
def natToDec (n : Nat) : GoStr := natToDecAux (n + 1) n []

/-- `AddressFromString` from the source:
`parts := strings.Split(str, "-")`; the callsign is `parts[0]`; when
there is a second part, `strconv.ParseInt(parts[1], 10, 32)` is tried and
the SSID is assigned only when it succeeds with a value in `[0, 255]`
(`uint8` conversion is then exact); otherwise the SSID stays 0.  The
function has no error result. -/
def AddressFromString (s : GoStr) : Address :=
  let parts := splitDash s
  if parts.length > 1 then
    match parseInt10 (parts.getD 1 []) with
    | some ssid =>
      if 0 ≤ ssid ∧ ssid ≤ 255 then ⟨parts.headD [], ssid.toNat⟩
      else ⟨parts.headD [], 0⟩
    | none => ⟨parts.headD [], 0⟩
  else ⟨parts.headD [], 0⟩

/-- `Address.String` from the source: `Call-SSID` (with the SSID printed
in decimal) when `a.SSID > 0`, and the bare `Call` otherwise. -/
def Address.String (a : Address) : GoStr :=
  if a.SSID > 0 then a.Call ++ dashCode :: natToDec a.SSID else a.Call

/-- A dash-free list is returned whole by `splitDash`. -/
theorem splitDash_no_dash (l : GoStr) (h : dashCode ∉ l) : splitDash l = [l] := by
  induction l with
  | nil => rfl
  | cons c cs ih =>
    have hc : ¬ c = dashCode := fun hh => h (by simp [hh])
    have hcs : dashCode ∉ cs := fun hh => h (by simp [hh])
    simp [splitDash, hc, ih hcs]

/-- `splitDash` peels a dash-free prefix before a dash. -/
theorem splitDash_append (call rest : GoStr) (h : dashCode ∉ call) :
    splitDash (call ++ dashCode :: rest) = call :: splitDash rest := by
  induction call with
  | nil => simp [splitDash]
  | cons c cs ih =>
    have hc : ¬ c = dashCode := fun hh => h (by simp [hh])
    have hcs : dashCode ∉ cs := fun hh => h (by simp [hh])
    simp [splitDash, hc, ih hcs]

set_option maxRecDepth 8192 in
/-- Parsing inverts canonical decimal rendering on `[0, 255]`, and such
numerals contain no dash. -/
theorem parseInt10_natToDec :
    ∀ n : Fin 256, parseInt10 (natToDec n.1) = some (n.1 : Int) ∧
      dashCode ∉ natToDec n.1 := by decide

/-- C4: for every valid address string `CALLSIGN-SSID` — a dash-free,
nonempty callsign followed by a dash and the canonical decimal numeral of
an SSID in `[0, 255]` — applying `AddressFromString` and then
`Address.String` yields the original string in normalized form; in
particular an SSID of 0 is rendered as the bare callsign with no `-0`
suffix. -/
theorem c4_address_roundtrip (call : GoStr) (n : Nat)
    (_hc : call ≠ []) (hd : dashCode ∉ call) (hn : n ≤ 255) :
    Address.String (AddressFromString (call ++ dashCode :: natToDec n)) =
      if n = 0 then call else call ++ dashCode :: natToDec n := by
  have h2 := parseInt10_natToDec ⟨n, by omega⟩
  have hsplit : splitDash (call ++ dashCode :: natToDec n) = [call, natToDec n] := by
    rw [splitDash_append call _ hd, splitDash_no_dash _ h2.2]
  have hcond : (0 : Int) ≤ (n : Int) ∧ (n : Int) ≤ 255 := by
    constructor
    · exact Int.natCast_nonneg n
    · exact_mod_cast hn
  have haddr : AddressFromString (call ++ dashCode :: natToDec n) = ⟨call, n⟩ := by
    simp only [AddressFromString, hsplit]
    simp [h2.1, hcond]
  rw [haddr]
  by_cases h0 : n = 0
  · subst h0
    simp [Address.String]
  · have hpos : 0 < n := Nat.pos_of_ne_zero h0
    simp [Address.String, hpos, h0]

/-- Witness for C4 at a concrete input: `"A-7"` round-trips to itself,
and `"A-0"` normalizes to `"A"`. -/
theorem c4_address_roundtrip_witness :
    Address.String (AddressFromString ([65] ++ dashCode :: natToDec 7)) =
      (if 7 = 0 then ([65] : GoStr) else [65] ++ dashCode :: natToDec 7) ∧
    Address.String (AddressFromString ([65] ++ dashCode :: natToDec 0)) =
      (if 0 = 0 then ([65] : GoStr) else [65] ++ dashCode :: natToDec 0) :=
  ⟨c4_address_roundtrip [65] 7 (by decide) (by decide) (by decide),
   c4_address_roundtrip [65] 0 (by decide) (by decide) (by decide)⟩

/-- C5 counterexample: the input `"A-12-34"` has a malformed
(non-numeric) SSID suffix after its first dash — `parseInt10 "12-34"`
fails — yet `AddressFromString` returns SSID 12, not 0: the parser reads
only the text between the first and second dash. -/
theorem c5_malformed_suffix_counterexample :
    parseInt10 [49, 50, 45, 51, 52] = none ∧
    AddressFromString [65, 45, 49, 50, 45, 51, 52] = ⟨[65], 12⟩ ∧
    (AddressFromString [65, 45, 49, 50, 45, 51, 52]).SSID ≠ 0 := by
  decide

/-- C5 (amended): for every input string whose candidate SSID token — the
text between the first dash and any following dash — fails to parse as a
decimal integer in `[0, 255]` (it is non-numeric or out of range; a
negative number never reaches the parser because its minus sign is
itself a dash separator), `AddressFromString` returns the text before the
first dash as the callsign with SSID 0, and it signals no error (its
result type has no error component). -/
theorem c5_malformed_token_amended (call rest tok : GoStr) (parts : List GoStr)
    (hd : dashCode ∉ call)
    (hsplit : splitDash rest = tok :: parts)
    (hbad : ∀ i : Int, parseInt10 tok = some i → ¬ (0 ≤ i ∧ i ≤ 255)) :
    AddressFromString (call ++ dashCode :: rest) = ⟨call, 0⟩ := by
  have h1 : splitDash (call ++ dashCode :: rest) = call :: tok :: parts := by
    rw [splitDash_append call rest hd, hsplit]
  simp only [AddressFromString, h1]
  cases hp : parseInt10 tok with
  | none => simp [hp]
  | some i =>
    have hni := hbad i hp
    simp [hp, hni]

/-- Witness for C5 (amended) at a concrete input: `"A-300"` has an
out-of-range SSID token, so the address falls back to callsign `"A"`
with SSID 0. -/
theorem c5_malformed_token_amended_witness :
    AddressFromString [65, 45, 51, 48, 48] = ⟨[65], 0⟩ :=
  c5_malformed_token_amended [65] [51, 48, 48] [51, 48, 48] [] (by decide) (by decide)
    (by
      intro i h
      rw [show parseInt10 [51, 48, 48] = some 300 from rfl] at h
      injection h with h2
      subst h2
      decide)
